import Mathlib

/-!
Verification development for a MONAI-Deploy style pipeline
(repository: totalsegmentator_map).

The repository has three source files:

* `totalseg_pdf.py` — `generate_pdf_report`, the statistics-to-report
  formatter (pure data transformation plus a call into the reportlab
  rendering library and a read of the current clock);
* `totalseg_operator.py` — `TotalsegmentatorOperator.compute` (the
  segmentation stage: temp dir, file copies, external executable,
  statistics-file parse, emission) and
  `TotalsegmentatorPDFOperator.compute` (the formatter stage wrapper);
* `app.py` — `App.compose` (the pipeline wiring) and `Rules_Text`
  (the series-selection rule set document).

External collaborators (the executor of the MONAI SDK, the
`DICOMSeriesSelectorOperator`, the reportlab renderer, the
segmentation executable, the filesystem and the clock) are modelled
as explicit parameters or oracles, following the spec where the
collaborator's behaviour matters.
-/

namespace TotalsegMap

/-! ## Data model of `generate_pdf_report` inputs (src/totalseg_pdf.py)

A statistics record in the Python code is `data : dict` mapping organ
names to per-organ detail values.  The code probes, per entry:
`isinstance(details, dict) and 'volume' in details`, and then
`float(details['volume'])` inside `try ... except (ValueError, TypeError)`.
We model a detail value by whether it is a mapping, whether it holds a
`volume` field, and whether `float` on that field succeeds (yielding a
rational, our model of the Python float) or raises. -/

/-- The `volume` field of a detail mapping: either `float(...)` succeeds
with value `q`, or it raises `ValueError`/`TypeError`. -/
inductive VolField
  | usable (q : ℚ)
  | unusable
deriving DecidableEq, Repr

/-- A per-organ detail value: either not a mapping at all, or a mapping
that may or may not contain a `volume` field. -/
inductive Details
  | notMapping
  | mapping (volume : Option VolField)
deriving DecidableEq, Repr

/-- The argument of `generate_pdf_report`: either not a dict (e.g. `None`),
or a dict given as its (insertion-ordered, unique-key) entry list. -/
inductive PyInput
  | notDict
  | dict (entries : List (String × Details))
deriving DecidableEq, Repr

/-! ## String formatting helpers (src/totalseg_pdf.py lines 65-74) -/

/-- Round-half-to-even of the fraction `num / den` (`den > 0`), the
rounding Python's fixed-point float formatting performs.  `f` is the
floor of the fraction and `r2` twice the remainder, so `r2 < den`
means the fractional part is below one half, `den < r2` above, and
equality is the tie, broken toward the even integer. -/
def roundHalfEvenFrac (num den : ℤ) : ℤ :=
  let f : ℤ := num.fdiv den
  let r2 : ℤ := 2 * (num - f * den)
  if r2 < den then f
  else if den < r2 then f + 1
  else if f % 2 = 0 then f else f + 1

/-- Two-digit zero-padded rendering of `r < 100`. -/
def twoDigits (r : ℕ) : String :=
  if r < 10 then "0" ++ toString r else toString r

/-- Model of Python `f"\x7bx:.2f\x7d"`: fixed-point with two decimals:
round-half-even of `100 * q`, computed on the numerator and
denominator of `q`, rendered with sign, integer part and two decimal
digits. -/
def formatTwoDec (q : ℚ) : String :=
  let n := roundHalfEvenFrac (q.num * 100) (q.den : ℤ)
  let s := if n < 0 then "-" else ""
  let m := n.natAbs
  s ++ toString (m / 100) ++ "." ++ twoDigits (m % 100)

/-- Model of Python `str.capitalize()`: first character upper-cased,
remaining characters lower-cased. -/
def pyCapitalize (s : String) : String :=
  match s.data with
  | [] => ""
  | c :: cs => String.mk (c.toUpper :: cs.map Char.toLower)

/-! ## The table rows (src/totalseg_pdf.py lines 59-80) -/

/-- One table row for one organ entry, exactly as the loop body of
`generate_pdf_report` appends it:
mapping with usable volume → formatted `volume / 1000`;
mapping with unusable volume → `"Invalid Data"`;
mapping without a `volume` key, or a non-mapping → `"Missing Data"`.
The organ name is capitalized in every case. -/
def mkRow (organ : String) (d : Details) : String × String :=
  match d with
  | .mapping (some (.usable q)) => (pyCapitalize organ, formatTwoDec (q / 1000))
  | .mapping (some .unusable) => (pyCapitalize organ, "Invalid Data")
  | .mapping none => (pyCapitalize organ, "Missing Data")
  | .notMapping => (pyCapitalize organ, "Missing Data")

/-- Whether an entry increments the loop's `valid_entries` counter. -/
def isUsable (d : Details) : Bool :=
  match d with
  | .mapping (some (.usable _)) => true
  | _ => false

/-- The `valid_entries` counter after the loop. -/
def validEntries (entries : List (String × Details)) : ℕ :=
  (entries.filter (fun p => isUsable p.2)).length

/-- The data rows of the table, in input order. -/
def dataRows (entries : List (String × Details)) : List (String × String) :=
  entries.map (fun p => mkRow p.1 p.2)

/-- The fixed header row `['Organ', 'Volume (cm³)']`. -/
def headerRow : String × String := ("Organ", "Volume (cm³)")

/-! ## The report document (the `story` built by `generate_pdf_report`) -/

/-- The body of the report: either the organ table (header row included,
as in the code's `table_data`) or a single explanatory paragraph. -/
inductive ReportBody
  | table (tableData : List (String × String))
  | line (text : String)
deriving DecidableEq, Repr

/-- The report document: title paragraph, generation-date paragraph and
body, the structure reportlab serializes to PDF bytes. -/
structure Report where
  title : String
  dateLine : String
  body : ReportBody
deriving DecidableEq, Repr

/-! ## `generate_pdf_report` (src/totalseg_pdf.py)

The function reads the clock (`datetime.datetime.now()`), so the
formatted current time is a parameter `now`.  The reportlab call
`doc.build(story)` can raise; the oracle `buildOk` says whether it
succeeds.  An uncaught Python exception is `Except.error ()`; the
Python return value (`None` or the PDF of a report document) is
`Except.ok (Option Report)`.

Control flow, faithful to the source:
* not a dict, or empty dict → return `None`;
* `valid_entries == 0 and len(data) > 0` → explanatory line, and
  `doc.build` here is NOT inside a try/except: a build failure
  propagates;
* `valid_entries == 0` otherwise (dead branch: `data` is known
  non-empty here) → "Input data was empty." line, build unprotected;
* otherwise → the table, and `doc.build` IS inside
  `try ... except Exception`: a build failure returns `None`. -/
def generate_pdf_report (data : PyInput) (now : String) (buildOk : Bool) :
    Except Unit (Option Report) :=
  match data with
  | .notDict => .ok none
  | .dict [] => .ok none
  | .dict entries =>
    let tableData := headerRow :: dataRows entries
    if validEntries entries == 0 && !entries.isEmpty then
      if buildOk then
        .ok (some { title := "Organ Volume Report",
                    dateLine := "Report generated on: " ++ now,
                    body := .line "No valid organ volume data available to display." })
      else .error ()
    else if validEntries entries == 0 then
      if buildOk then
        .ok (some { title := "Organ Volume Report",
                    dateLine := "Report generated on: " ++ now,
                    body := .line "Input data was empty." })
      else .error ()
    else
      if buildOk then
        .ok (some { title := "Organ Volume Report",
                    dateLine := "Report generated on: " ++ now,
                    body := .table tableData })
      else .ok none

/-! ## `TotalsegmentatorPDFOperator.compute` (src/totalseg_operator.py lines 40-44)

The operator receives `report_dict`, calls `generate_pdf_report`, and
then emits the result on `"pdf_bytes"` — unconditionally, with no
null check.  Its result is the list of (port, value) emissions the
invocation performs, or an uncaught exception. -/

/-- The PDF operator's `compute`: one unconditional emission of the
formatter result (possibly `None`) on the `"pdf_bytes"` port. -/
def pdfOperatorCompute (report_dict : PyInput) (now : String) (buildOk : Bool) :
    Except Unit (List (String × Option Report)) :=
  match generate_pdf_report report_dict now buildOk with
  | .error e => .error e
  | .ok pdf => .ok [("pdf_bytes", pdf)]

/-! ## `TotalsegmentatorOperator.compute` (src/totalseg_operator.py lines 66-91)

Data model of the input: the selector emits a list of
study-selected-series records; each holds a list of selected series;
each selected series has SOP instances with source file paths. -/

/-- One selected series: the file paths of its SOP instances
(`f._sop.filename` in the copy loop). -/
structure SelectedSeries where
  instances : List String
deriving DecidableEq, Repr

/-- One element of `study_selected_series_list`. -/
structure StudySelectedSeries where
  selected_series : List SelectedSeries
deriving DecidableEq, Repr

/-- The Python exceptions the segmentation stage can raise:
`IndexError` from `data_in[0]` / `selected_series[0]`,
`CalledProcessError` from `subprocess.check_output`,
`FileNotFoundError` from `open(statistics.json)`,
`JSONDecodeError` from `json.load`, and (for the pipeline model)
an uncaught formatter rendering failure. -/
inductive Fault
  | indexError
  | calledProcessError
  | fileNotFoundError
  | jsonDecodeError
  | renderError
deriving DecidableEq, Repr

/-- Oracle for the external collaborators of the segmentation stage:
whether `TotalSegmentator` exits zero, and the statistics file it
leaves behind (`none` = no file, `some none` = present but malformed
JSON, `some (some r)` = parses to the record `r`). -/
structure SegEnv where
  exitZero : Bool
  statsFile : Option (Option PyInput)
deriving DecidableEq, Repr

/-- Filesystem effects of one segmentation-stage invocation, in order:
creation of the temporary directory, `shutil.copy2` of one instance
into it, the external executable run (which writes only inside the
`out` subdirectory of the temporary area), and the removal of the
temporary directory.  No other process-wide effect occurs in the
source, so the trace alphabet has no other event. -/
inductive FsEvent
  | tempCreate
  | copyIn (src : String)
  | segRun
  | tempDestroy
deriving DecidableEq, BEq, Repr

/-- The body of the `with tempfile.TemporaryDirectory()` block:
index the first study and its first selected series (raising
`IndexError` when either list is empty), copy that series' instances,
run the executable, then open and parse `out/statistics.json`.
Returns the parsed report or the exception, with the trace of
filesystem events the body performed. -/
def segComputeBody (data_in : List StudySelectedSeries) (env : SegEnv) :
    Except Fault PyInput × List FsEvent :=
  match data_in with
  | [] => (.error .indexError, [])
  | st :: _ =>
    match st.selected_series with
    | [] => (.error .indexError, [])
    | ser :: _ =>
      let copies := ser.instances.map FsEvent.copyIn
      if env.exitZero then
        match env.statsFile with
        | none => (.error .fileNotFoundError, copies ++ [.segRun])
        | some none => (.error .jsonDecodeError, copies ++ [.segRun])
        | some (some record) => (.ok record, copies ++ [.segRun])
      else (.error .calledProcessError, copies ++ [.segRun])

/-- The segmentation stage's `compute`: the `with` statement creates
the temporary directory before the body and destroys it on every exit
path of the body, normal or exceptional; the emission on
`"report_dict"` sits after the `with` block and is reached only when
the body returned normally. -/
def segCompute (data_in : List StudySelectedSeries) (env : SegEnv) :
    Except Fault (List (String × PyInput)) × List FsEvent :=
  let body := segComputeBody data_in env
  let trace := FsEvent.tempCreate :: body.2 ++ [FsEvent.tempDestroy]
  match body.1 with
  | .error f => (.error f, trace)
  | .ok record => (.ok [("report_dict", record)], trace)

/-- The source file paths `shutil.copy2` copied, read off a trace. -/
def filesCopied : List FsEvent → List String
  | [] => []
  | .copyIn s :: es => s :: filesCopied es
  | _ :: es => filesCopied es

/-! ## Downstream pipeline run (executor semantics)

The executor itself is the MONAI SDK, an external collaborator.
Modelled from the spec: section 4.1 — a stage runs when every bound
input port has received a value; an edge fires when its producer
emits on the port; a stage that does not emit leaves its downstream
edges unfired and the consumers bound only to them never run; an
uncaught fault inside a stage aborts the entire run.  The wiring is
the one `App.compose` builds (src/app.py lines 69-73):
`totalseg_op → pdf_op` on `report_dict`, `pdf_op → pdf_to_dcm` on
`pdf_bytes` (plus the selector edge into `pdf_to_dcm`, assumed fired). -/

/-- The three stages downstream of series selection. -/
inductive StageId
  | segmentation
  | formatter
  | embedding
deriving DecidableEq, BEq, Repr

/-- Modelled from the spec: the executor's run of the pipeline suffix
starting at the segmentation stage, per the emission/abort semantics
of section 4.1 over the edges of `App.compose`.  Returns the list of
stages that executed, in order, and whether the run completed or
aborted on an uncaught fault. -/
def runFromSegmentation (data_in : List StudySelectedSeries) (env : SegEnv)
    (now : String) (buildOk : Bool) : List StageId × Except Fault Unit :=
  match (segCompute data_in env).1 with
  | .error f => ([.segmentation], .error f)
  | .ok ems =>
    match ems.lookup "report_dict" with
    | none => ([.segmentation], .ok ())
    | some rd =>
      match pdfOperatorCompute rd now buildOk with
      | .error _ => ([.segmentation, .formatter], .error .renderError)
      | .ok pems =>
        match pems.lookup "pdf_bytes" with
        | none => ([.segmentation, .formatter], .ok ())
        | some _ => ([.segmentation, .formatter, .embedding], .ok ())

/-! ## Series selection (src/app.py)

The selection stage itself is `DICOMSeriesSelectorOperator`, an
external collaborator from the MONAI SDK; only its configuration
lives in this repository. -/

/-- A DICOM series, abstracted to its string-valued attributes
(e.g. `Modality`). -/
structure DicomSeries where
  attrs : List (String × String)
deriving DecidableEq, Repr

/-- One named selection of a rule set: a name and a mapping of
attribute name to required value. -/
structure SelectionRule where
  name : String
  conditions : List (String × String)
deriving DecidableEq, Repr

/-- A selection rule set: the named selections in declaration order. -/
structure RuleSet where
  selections : List SelectionRule
deriving DecidableEq, Repr

/-- Modelled from the spec: a series matches a rule when every
attribute condition is satisfied by the series metadata, by exact
string equality (section 4.2); the selector operator is not in src. -/
def seriesMatches (s : DicomSeries) (conds : List (String × String)) : Bool :=
  conds.all (fun c => s.attrs.lookup c.1 == some c.2)

/-- Modelled from the spec: the selection algorithm of section 4.2 —
for each rule in declaration order, scan all series of all studies in
input order and keep the matches, tagged with the rule name. -/
def selectSeries (rules : RuleSet) (studies : List (List DicomSeries)) :
    List (String × DicomSeries) :=
  rules.selections.flatMap (fun rule =>
    ((studies.flatMap id).filter (fun s => seriesMatches s rule.conditions)).map
      (fun s => (rule.name, s)))

/-- The module-level `Rules_Text` JSON document of src/app.py
(lines 75-86), parsed: one selection named "CT Series" with the single
condition `Modality == "CT"`. -/
def Rules_Text : RuleSet :=
  { selections := [{ name := "CT Series", conditions := [("Modality", "CT")] }] }

/-- The rule-set argument `App.compose` passes when constructing the
selector (src/app.py line 64):
`DICOMSeriesSelectorOperator(self, name="series_selector")` passes no
rules argument at all, so the configured rule set is absent. -/
def appSelectorRules : Option RuleSet := none

/-- Entry list of the C5 witness: one usable volume, one unusable,
one non-mapping. -/
def c5Entries : List (String × Details) :=
  [("spleen", .mapping (some (.usable 377109))),
   ("liver", .mapping (some .unusable)),
   ("gone", .notMapping)]

/-- Table of the C5 witness. -/
def c5Table : List (String × String) :=
  [headerRow, ("Spleen", "377.11"), ("Liver", "Invalid Data"), ("Gone", "Missing Data")]

/-- Report of the C5 witness. -/
def c5Report : Report :=
  { title := "Organ Volume Report",
    dateLine := "Report generated on: " ++ "T",
    body := .table c5Table }

end TotalsegMap

deriving instance DecidableEq for Except

namespace TotalsegMap

/-! ## Helper lemmas -/

/-- Division by 1000 on ℚ, re-expressed through `mkRat` so that concrete
instances evaluate (the `Div ℚ` instance is irreducible). -/
theorem div_thousand_mkRat (q : ℚ) : q / 1000 = mkRat q.num (q.den * 1000) := by
  rw [Rat.mkRat_eq_divInt, Rat.divInt_eq_div]
  push_cast
  rw [div_mul_eq_div_div, Rat.num_div_den]

/-- The row of the spec's unit-conversion example. -/
theorem spleen_row_eq :
    mkRow "spleen" (.mapping (some (.usable (377109 : ℚ)))) = ("Spleen", "377.11") := by
  show (pyCapitalize "spleen", formatTwoDec ((377109 : ℚ) / 1000)) = ("Spleen", "377.11")
  rw [div_thousand_mkRat]
  decide

/-- On input with at least one usable volume and a succeeding renderer,
`generate_pdf_report` returns the table report. -/
theorem generate_table_eq (entries : List (String × Details)) (now : String)
    (h : validEntries entries ≠ 0) :
    generate_pdf_report (.dict entries) now true =
      .ok (some { title := "Organ Volume Report",
                  dateLine := "Report generated on: " ++ now,
                  body := .table (headerRow :: dataRows entries) }) := by
  cases entries with
  | nil => simp [validEntries] at h
  | cons e es =>
    have hb : (validEntries (e :: es) == 0) = false := by
      simpa using h
    simp [generate_pdf_report, hb]

/-- On non-empty input with no usable volume and a succeeding renderer,
`generate_pdf_report` returns the explanatory-line report. -/
theorem generate_line_eq (e : String × Details) (es : List (String × Details)) (now : String)
    (h : validEntries (e :: es) = 0) :
    generate_pdf_report (.dict (e :: es)) now true =
      .ok (some { title := "Organ Volume Report",
                  dateLine := "Report generated on: " ++ now,
                  body := .line "No valid organ volume data available to display." }) := by
  simp [generate_pdf_report, h]

/-- On input with at least one usable volume and a failing renderer,
`generate_pdf_report` swallows the failure and returns null. -/
theorem generate_table_fail_eq (entries : List (String × Details)) (now : String)
    (h : validEntries entries ≠ 0) :
    generate_pdf_report (.dict entries) now false = .ok none := by
  cases entries with
  | nil => simp [validEntries] at h
  | cons e es =>
    have hb : (validEntries (e :: es) == 0) = false := by
      simpa using h
    simp [generate_pdf_report, hb]

/-- On non-empty input with no usable volume and a failing renderer,
`generate_pdf_report` raises. -/
theorem generate_line_fail_eq (e : String × Details) (es : List (String × Details))
    (now : String) (h : validEntries (e :: es) = 0) :
    generate_pdf_report (.dict (e :: es)) now false = .error () := by
  simp [generate_pdf_report, h]

/-- Every table row carries the capitalized organ name in its first
component. -/
theorem mkRow_fst (organ : String) (d : Details) :
    (mkRow organ d).1 = pyCapitalize organ := by
  cases d with
  | notMapping => rfl
  | mapping v =>
    cases v with
    | none => rfl
    | some vf => cases vf <;> rfl

/-- Every table row's second component is a formatted converted volume
or one of the two sentinels. -/
theorem mkRow_snd_cases (organ : String) (d : Details) :
    (∃ q : ℚ, (mkRow organ d).2 = formatTwoDec (q / 1000)) ∨
      (mkRow organ d).2 = "Missing Data" ∨ (mkRow organ d).2 = "Invalid Data" := by
  cases d with
  | notMapping => exact Or.inr (Or.inl rfl)
  | mapping v =>
    cases v with
    | none => exact Or.inr (Or.inl rfl)
    | some vf =>
      cases vf with
      | usable q => exact Or.inl ⟨q, rfl⟩
      | unusable => exact Or.inr (Or.inr rfl)

/-! ## Claim theorems -/

/-- C3 counterexample: on the input with one entry and no usable volume
(the spec's own explanatory-line example shape), a rendering failure in
`doc.build` is NOT converted to a null result — `generate_pdf_report`
lets the exception escape to the caller, because on the explanatory-line
path the `doc.build` call sits outside any try/except. -/
theorem render_failure_uncaught_on_line_path :
    generate_pdf_report (.dict [("x", .mapping none)]) "2024-01-01 00:00:00" false =
      .error () := rfl

/-- C3 (amended): a rendering failure is caught inside
`generate_pdf_report` and converted to a null result on the table path,
i.e. for every input with at least one usable volume; on the
explanatory-line path the failure propagates instead. -/
theorem render_failure_caught_on_table_path (entries : List (String × Details))
    (now : String) (h : validEntries entries ≠ 0) :
    generate_pdf_report (.dict entries) now false = .ok none := by
  cases entries with
  | nil => simp [validEntries] at h
  | cons e es =>
    have hb : (validEntries (e :: es) == 0) = false := by
      simpa using h
    simp [generate_pdf_report, hb]

/-- Witness for C3 (amended) at a one-entry input with a usable volume. -/
theorem render_failure_caught_on_table_path_witness :
    validEntries [("spleen", Details.mapping (some (VolField.usable 1)))] ≠ 0 ∧
    generate_pdf_report (.dict [("spleen", .mapping (some (.usable 1)))]) "T" false =
      .ok none :=
  ⟨by decide, render_failure_caught_on_table_path _ "T" (by decide)⟩

/-- C4 counterexample: `generate_pdf_report` is not a pure function of
its statistics input — the report embeds the generation timestamp read
from the clock, so two invocations of the same input at different times
produce different reports (hence different bytes). -/
theorem formatter_output_differs_across_timestamps :
    generate_pdf_report (.dict [("x", .mapping none)]) "2024-01-01 00:00:00" true ≠
      generate_pdf_report (.dict [("x", .mapping none)]) "2024-01-02 00:00:00" true := by
  decide

/-- C4 (amended): the formatter is deterministic up to the embedded
timestamp — for every statistics input and fixed rendering outcome, two
invocations at any two clock readings agree on success/failure,
nullness, and the entire report body; only the timestamp line differs. -/
theorem formatter_deterministic_up_to_timestamp (data : PyInput) (t1 t2 : String)
    (buildOk : Bool) :
    Except.map (Option.map Report.body) (generate_pdf_report data t1 buildOk) =
      Except.map (Option.map Report.body) (generate_pdf_report data t2 buildOk) := by
  cases data with
  | notDict => rfl
  | dict entries =>
    cases entries with
    | nil => rfl
    | cons e es =>
      cases hv : (validEntries (e :: es) == 0) <;> cases buildOk <;>
        simp [generate_pdf_report, hv, Except.map, Option.map]

/-- C7: for every organ entry holding a usable numeric volume the
formatter emits the row (capitalized organ, volume divided by 1000
formatted to two decimals); in particular the spec's example
`{"spleen": {"volume": 377109.0}}` yields the table row
`("Spleen", "377.11")`. -/
theorem usable_volume_converted_and_formatted :
    (∀ (organ : String) (q : ℚ),
      mkRow organ (Details.mapping (some (VolField.usable q))) =
        (pyCapitalize organ, formatTwoDec (q / 1000))) ∧
    (∀ now : String,
      generate_pdf_report
          (.dict [("spleen", .mapping (some (.usable (377109 : ℚ))))]) now true =
        .ok (some { title := "Organ Volume Report",
                    dateLine := "Report generated on: " ++ now,
                    body := .table [headerRow, ("Spleen", "377.11")] })) := by
  constructor
  · intro organ q
    rfl
  · intro now
    rw [generate_table_eq _ _ (by decide)]
    simp [dataRows, spleen_row_eq]

/-- C6: with the renderer succeeding, `generate_pdf_report` returns a
null result exactly when the input is not a mapping or is the empty
mapping; and every non-empty input with no usable numeric volume yields
the non-null report whose body is the explanatory single line. -/
theorem formatter_null_iff_degenerate_input (data : PyInput) (now : String) :
    (generate_pdf_report data now true = .ok none ↔
      data = .notDict ∨ data = .dict []) ∧
    (∀ entries, data = .dict entries → entries ≠ [] → validEntries entries = 0 →
      generate_pdf_report data now true =
        .ok (some { title := "Organ Volume Report",
                    dateLine := "Report generated on: " ++ now,
                    body := .line "No valid organ volume data available to display." })) := by
  constructor
  · constructor
    · intro h
      cases data with
      | notDict => exact Or.inl rfl
      | dict entries =>
        cases entries with
        | nil => exact Or.inr rfl
        | cons e es =>
          exfalso
          by_cases hv : validEntries (e :: es) = 0
          · rw [generate_line_eq e es now hv] at h
            simp at h
          · rw [generate_table_eq (e :: es) now hv] at h
            simp at h
    · intro h
      rcases h with h | h <;> subst h <;> rfl
  · intro entries hdata hne hv
    subst hdata
    cases entries with
    | nil => exact absurd rfl hne
    | cons e es => exact generate_line_eq e es now hv

/-- Witness for C6 at the spec's own example shape
`{"x": {"intensity": 1}}` (a mapping entry without a volume field). -/
theorem formatter_null_iff_degenerate_input_witness :
    ([("x", Details.mapping none)] ≠ ([] : List (String × Details))) ∧
    validEntries [("x", Details.mapping none)] = 0 ∧
    generate_pdf_report (.dict [("x", .mapping none)]) "T" true =
      .ok (some { title := "Organ Volume Report",
                  dateLine := "Report generated on: " ++ "T",
                  body := .line "No valid organ volume data available to display." }) :=
  ⟨by decide, by decide,
    (formatter_null_iff_degenerate_input (.dict [("x", .mapping none)]) "T").2
      [("x", Details.mapping none)] rfl (by decide) (by decide)⟩

/-- C5: whenever `generate_pdf_report` produces a report whose body is a
table, that table is the header row followed by exactly one data row
per input entry, in order, each row pairing the capitalized organ name
with a formatted converted volume or one of the sentinels
`"Missing Data"` / `"Invalid Data"`; no input key is dropped. -/
theorem report_table_one_row_per_entry (entries : List (String × Details)) (now : String)
    (buildOk : Bool) (r : Report) (td : List (String × String))
    (hgen : generate_pdf_report (.dict entries) now buildOk = .ok (some r))
    (hbody : r.body = .table td) :
    td = headerRow :: dataRows entries ∧
    (dataRows entries).length = entries.length ∧
    ∀ row ∈ dataRows entries, ∃ p ∈ entries,
      row = mkRow p.1 p.2 ∧ row.1 = pyCapitalize p.1 ∧
      ((∃ q : ℚ, row.2 = formatTwoDec (q / 1000)) ∨
        row.2 = "Missing Data" ∨ row.2 = "Invalid Data") := by
  have htd : td = headerRow :: dataRows entries := by
    cases entries with
    | nil => simp [generate_pdf_report] at hgen
    | cons e es =>
      by_cases hv : validEntries (e :: es) = 0
      · cases buildOk with
        | false =>
          rw [generate_line_fail_eq e es now hv] at hgen
          simp at hgen
        | true =>
          rw [generate_line_eq e es now hv] at hgen
          simp only [Except.ok.injEq, Option.some.injEq] at hgen
          subst hgen
          simp at hbody
      · cases buildOk with
        | false =>
          rw [generate_table_fail_eq (e :: es) now hv] at hgen
          simp at hgen
        | true =>
          rw [generate_table_eq (e :: es) now hv] at hgen
          simp only [Except.ok.injEq, Option.some.injEq] at hgen
          subst hgen
          simp only [ReportBody.table.injEq] at hbody
          exact hbody.symm
  refine ⟨htd, by simp [dataRows], ?_⟩
  intro row hrow
  simp only [dataRows, List.mem_map] at hrow
  obtain ⟨p, hp, hrow⟩ := hrow
  exact ⟨p, hp, hrow.symm, by rw [← hrow]; exact mkRow_fst p.1 p.2,
    by rw [← hrow]; exact mkRow_snd_cases p.1 p.2⟩

/-- The data rows of the C5 witness entries, evaluated. -/
theorem c5_rows_eq :
    dataRows c5Entries =
      [("Spleen", "377.11"), ("Liver", "Invalid Data"), ("Gone", "Missing Data")] := by
  show [mkRow "spleen" (.mapping (some (.usable 377109))),
        mkRow "liver" (.mapping (some .unusable)),
        mkRow "gone" .notMapping] = _
  rw [spleen_row_eq]
  decide

/-- Witness for C5: a three-entry input exercising all three row forms
produces a four-row table (header plus three data rows). -/
theorem report_table_one_row_per_entry_witness :
    generate_pdf_report (.dict c5Entries) "T" true = .ok (some c5Report) ∧
    c5Report.body = .table c5Table ∧
    (c5Table = headerRow :: dataRows c5Entries ∧
     (dataRows c5Entries).length = c5Entries.length ∧
     ∀ row ∈ dataRows c5Entries, ∃ p ∈ c5Entries,
       row = mkRow p.1 p.2 ∧ row.1 = pyCapitalize p.1 ∧
       ((∃ q : ℚ, row.2 = formatTwoDec (q / 1000)) ∨
         row.2 = "Missing Data" ∨ row.2 = "Invalid Data")) := by
  have h : generate_pdf_report (.dict c5Entries) "T" true = .ok (some c5Report) := by
    rw [generate_table_eq c5Entries "T" (by decide), c5_rows_eq]
    rfl
  exact ⟨h, rfl, report_table_one_row_per_entry c5Entries "T" true c5Report c5Table h rfl⟩

/-- C1 counterexample: when the segmentation stage emits an empty
statistics mapping, the formatter produces a null result, yet the PDF
stage still emits (the null value) on its `pdf_bytes` port, the edge
fires, and the embedding stage executes — so the embedding stage IS
invoked with null report bytes. -/
theorem pdf_stage_emits_null_counterexample :
    generate_pdf_report (.dict []) "2024-01-01 00:00:00" true = .ok none ∧
    pdfOperatorCompute (.dict []) "2024-01-01 00:00:00" true =
      .ok [("pdf_bytes", (none : Option Report))] ∧
    runFromSegmentation [{ selected_series := [{ instances := ["a.dcm"] }] }]
        { exitZero := true, statsFile := some (some (.dict [])) }
        "2024-01-01 00:00:00" true =
      ([.segmentation, .formatter, .embedding], .ok ()) :=
  ⟨rfl, rfl, rfl⟩

/-- C1 (amended): the PDF stage emits the formatter's result on its
`pdf_bytes` output port unconditionally — also when that result is
null — so the downstream edge to the embedding stage fires on every
non-faulting invocation. -/
theorem pdf_stage_emits_formatter_result_unconditionally (rd : PyInput) (now : String)
    (buildOk : Bool) (res : Option Report)
    (h : generate_pdf_report rd now buildOk = .ok res) :
    pdfOperatorCompute rd now buildOk = .ok [("pdf_bytes", res)] := by
  simp [pdfOperatorCompute, h]

/-- Witness for C1 (amended) at the empty statistics mapping, where the
formatter result is null. -/
theorem pdf_stage_emits_formatter_result_unconditionally_witness :
    generate_pdf_report (.dict []) "T" true = .ok none ∧
    pdfOperatorCompute (.dict []) "T" true =
      .ok [("pdf_bytes", (none : Option Report))] :=
  ⟨rfl, pdf_stage_emits_formatter_result_unconditionally (.dict []) "T" true none rfl⟩

/-- The trace of the segmentation stage is the temp-dir bracket around
the trace of the `with` block's body. -/
theorem segCompute_trace (data_in : List StudySelectedSeries) (env : SegEnv) :
    (segCompute data_in env).2 =
      .tempCreate :: (segComputeBody data_in env).2 ++ [.tempDestroy] := by
  unfold segCompute
  cases h : (segComputeBody data_in env).1 <;> simp [h]

/-- The body trace is either empty (index fault before any copy) or
the copies of one series followed by the executable run. -/
theorem segBody_trace_cases (data_in : List StudySelectedSeries) (env : SegEnv) :
    (segComputeBody data_in env).2 = [] ∨
    ∃ ser : SelectedSeries, (segComputeBody data_in env).2 =
      ser.instances.map FsEvent.copyIn ++ [FsEvent.segRun] := by
  rcases data_in with _ | ⟨st, rest⟩
  · exact Or.inl rfl
  · rcases hs : st.selected_series with _ | ⟨ser, srest⟩
    · exact Or.inl (by simp [segComputeBody, hs])
    · refine Or.inr ⟨ser, ?_⟩
      cases he : env.exitZero
      · simp [segComputeBody, hs, he]
      · rcases hf : env.statsFile with _ | (_ | _) <;> simp [segComputeBody, hs, he, hf]

/-- `filesCopied` distributes over list append. -/
theorem filesCopied_append (xs ys : List FsEvent) :
    filesCopied (xs ++ ys) = filesCopied xs ++ filesCopied ys := by
  induction xs with
  | nil => rfl
  | cons x xs ih => cases x <;> simp [filesCopied, ih]

/-- `filesCopied` recovers the sources of a pure copy trace. -/
theorem filesCopied_map_copyIn (l : List String) :
    filesCopied (l.map FsEvent.copyIn) = l := by
  induction l with
  | nil => rfl
  | cons s l ih => simp [filesCopied, ih]

/-- C9: on every invocation of the segmentation stage — every input and
every collaborator outcome, normal return or fault — the effect trace
is exactly one temporary-directory creation, first, and exactly one
removal, last, with only in-temp-area events (instance copies and the
executable run) in between; the stage touches no other process-wide
state. -/
theorem temp_dir_cleanup_every_exit_path (data_in : List StudySelectedSeries)
    (env : SegEnv) :
    ∃ mid, (segCompute data_in env).2 = .tempCreate :: mid ++ [.tempDestroy] ∧
      FsEvent.tempCreate ∉ mid ∧ FsEvent.tempDestroy ∉ mid := by
  refine ⟨(segComputeBody data_in env).2, segCompute_trace data_in env, ?_, ?_⟩ <;>
    rcases segBody_trace_cases data_in env with h | ⟨ser, h⟩ <;>
      rw [h] <;> simp [List.mem_map]

/-- C10: the segmentation stage indexes the first study's first
selected series unconditionally: if either list is empty it raises an
index fault, and otherwise it copies exactly the instances of that
first series, whatever else was selected and whatever the external
collaborators do. -/
theorem seg_first_series_only_and_index_fault (data_in : List StudySelectedSeries)
    (env : SegEnv) :
    (data_in.head?.bind (fun st => st.selected_series.head?) = none →
      (segCompute data_in env).1 = .error .indexError) ∧
    ∀ ser, data_in.head?.bind (fun st => st.selected_series.head?) = some ser →
      filesCopied (segCompute data_in env).2 = ser.instances := by
  constructor
  · intro h
    rcases data_in with _ | ⟨st, rest⟩
    · rfl
    · rcases hs : st.selected_series with _ | ⟨ser, srest⟩
      · simp [segCompute, segComputeBody, hs]
      · simp [hs] at h
  · intro ser h
    rcases data_in with _ | ⟨st, rest⟩
    · simp at h
    · rcases hs : st.selected_series with _ | ⟨ser2, srest⟩
      · simp [hs] at h
      · have hser : ser2 = ser := by simpa [hs] using h
        subst hser
        have hbody : (segComputeBody (st :: rest) env).2 =
            ser2.instances.map FsEvent.copyIn ++ [FsEvent.segRun] := by
          cases he : env.exitZero
          · simp [segComputeBody, hs, he]
          · rcases hf : env.statsFile with _ | (_ | _) <;>
              simp [segComputeBody, hs, he, hf]
        rw [segCompute_trace, hbody]
        show filesCopied ((ser2.instances.map FsEvent.copyIn ++ [FsEvent.segRun]) ++
          [FsEvent.tempDestroy]) = ser2.instances
        rw [filesCopied_append, filesCopied_append, filesCopied_map_copyIn]
        simp [filesCopied]

/-- One two-instance series, the witness target of C10. -/
def c10Series : SelectedSeries := { instances := ["a.dcm", "b.dcm"] }

/-- A study with two selected series, of which only the first may be
touched. -/
def c10Study : StudySelectedSeries :=
  { selected_series := [c10Series, { instances := ["c.dcm"] }] }

/-- Witness for C10: the empty input faults with an index error, and a
two-series study gets exactly the first series' instances copied. -/
theorem seg_first_series_only_and_index_fault_witness :
    (([] : List StudySelectedSeries).head?.bind
        (fun st => st.selected_series.head?) = none ∧
      (segCompute [] { exitZero := true, statsFile := none }).1 = .error .indexError) ∧
    ([c10Study].head?.bind (fun st => st.selected_series.head?) = some c10Series ∧
      filesCopied (segCompute [c10Study] { exitZero := true, statsFile := none }).2 =
        c10Series.instances) :=
  ⟨⟨rfl, (seg_first_series_only_and_index_fault [] _).1 rfl⟩,
   ⟨rfl, (seg_first_series_only_and_index_fault [c10Study] _).2 c10Series rfl⟩⟩

/-- C8: whenever the segmentation executable exits non-zero, or the
statistics file is missing or malformed, the segmentation stage raises
a fault and never emits on `report_dict`; the run aborts with that
fault and neither the formatter stage nor the embedding stage ever
executes. -/
theorem segmentation_failure_aborts_run (data_in : List StudySelectedSeries)
    (env : SegEnv) (now : String) (buildOk : Bool)
    (h : env.exitZero = false ∨ env.statsFile = none ∨ env.statsFile = some none) :
    (∃ f, (segCompute data_in env).1 = .error f) ∧
    (∀ ems, (segCompute data_in env).1 ≠ .ok ems) ∧
    (runFromSegmentation data_in env now buildOk).1 = [.segmentation] ∧
    (∃ f, (runFromSegmentation data_in env now buildOk).2 = .error f) := by
  have hseg : ∃ f, (segCompute data_in env).1 = .error f := by
    rcases data_in with _ | ⟨st, rest⟩
    · exact ⟨.indexError, rfl⟩
    · rcases hs : st.selected_series with _ | ⟨ser, srest⟩
      · exact ⟨.indexError, by simp [segCompute, segComputeBody, hs]⟩
      · rcases h with he | hf | hf
        · exact ⟨.calledProcessError, by simp [segCompute, segComputeBody, hs, he]⟩
        · cases he : env.exitZero
          · exact ⟨.calledProcessError, by simp [segCompute, segComputeBody, hs, he]⟩
          · exact ⟨.fileNotFoundError, by simp [segCompute, segComputeBody, hs, he, hf]⟩
        · cases he : env.exitZero
          · exact ⟨.calledProcessError, by simp [segCompute, segComputeBody, hs, he]⟩
          · exact ⟨.jsonDecodeError, by simp [segCompute, segComputeBody, hs, he, hf]⟩
  obtain ⟨f, hf⟩ := hseg
  refine ⟨⟨f, hf⟩, ?_, ?_, ⟨f, ?_⟩⟩
  · intro ems hems
    exact Except.noConfusion (hems.symm.trans hf)
  · simp [runFromSegmentation, hf]
  · simp [runFromSegmentation, hf]

/-- Witness for C8: a non-zero executable exit on a well-formed input
aborts the run after the segmentation stage alone. -/
theorem segmentation_failure_aborts_run_witness :
    (∃ f, (segCompute [c10Study] { exitZero := false, statsFile := none }).1 =
      .error f) ∧
    (∀ ems, (segCompute [c10Study] { exitZero := false, statsFile := none }).1 ≠
      .ok ems) ∧
    (runFromSegmentation [c10Study] { exitZero := false, statsFile := none }
      "T" true).1 = [.segmentation] ∧
    (∃ f, (runFromSegmentation [c10Study] { exitZero := false, statsFile := none }
      "T" true).2 = .error f) :=
  segmentation_failure_aborts_run [c10Study] _ "T" true (Or.inl rfl)

/-- C2 (code bug): the reference rule set `Rules_Text` does select
exactly the CT series out of a two-series study, but `App.compose`
constructs the selector without passing any rule set: the composed
application's Series Selection stage is not configured with
`Rules_Text`. -/
theorem selector_rule_set_not_wired :
    appSelectorRules = none ∧
    appSelectorRules ≠ some Rules_Text ∧
    selectSeries Rules_Text
        [[{ attrs := [("Modality", "CT")] }, { attrs := [("Modality", "MR")] }]] =
      [("CT Series", { attrs := [("Modality", "CT")] })] :=
  ⟨rfl, by simp [appSelectorRules], rfl⟩

end TotalsegMap
